import Mathlib

/-!
Verification development for the data-access core of a BigQuery-backed
analytics dashboard (`app/bigquery_client.py`).

The embedding is shallow:

* The master dataset (a pyarrow table) is a list of rows with the seven
  fixed filter/projection columns plus an association list of numeric
  metric columns.  Metric cell values are `Option Int` (`none` models a
  SQL NULL); the claims under study concern null handling, grouping and
  ordering, not floating-point rounding, so numeric values are modelled
  as integers.  Reporting dates compare chronologically and are modelled
  as integers; plan names, cohorts and the other string columns are
  `String`.
* Python dicts keep insertion order; the aggregation dict of
  `load_chart_data` / `load_all_chart_data` is modelled as an association
  list where a new key is appended at the end and an existing key is
  updated in place (`dictAdd`), exactly CPython's observable behaviour.
* A pyarrow `table.column(name)` access with a name that is not a column
  raises `KeyError`; using one of the seven non-numeric fixed columns as
  a chart metric raises `TypeError` inside the `0 + value` accumulation
  (those columns hold non-null strings/dates).  Both uncaught exceptions
  are modelled by returning `none` from the query function.
* External systems (the object store and BigQuery) are an explicit
  `World`: the memoized bucket resolution (`get_gcs_bucket`) is the
  boolean `bucket`, the four durable objects are `store`, and the
  `downloadOk` / `uploadOk` / `bqOk` flags inject transport-level
  failures of the corresponding remote calls (a parse failure of a
  downloaded object behaves like a failed download and is covered by
  `downloadOk`).  Functions that mutate the store thread the `World`;
  `datetime.now()` is an explicit `now` parameter.  An uncaught Python
  exception is `Except.error`.
-/

namespace BQClient

/-- One row of the master dataset: the seven fixed columns plus the
numeric metric columns as an association list `column name -> cell`. -/
structure Row where
  reportingDate : Int
  appName : String
  planName : String
  bc : Int
  cohort : String
  activeInactive : String
  tableType : String
  metricValues : List (String × Option Int)
deriving DecidableEq

/-- The master dataset: the list of metric column names (shared by all
rows) and the rows. -/
structure Table where
  metricCols : List String
  rows : List Row
deriving DecidableEq

/-- `column_names` of the pyarrow table: the seven fixed projection
columns followed by the numeric metric columns. -/
def Table.columnNames (t : Table) : List String :=
  ["Reporting_Date", "App_Name", "Plan_Name", "BC", "Cohort",
    "Active_Inactive", "Table"] ++ t.metricCols

/-- The value of metric column `m` in row `r`: `none` both for a SQL
NULL cell and for a column absent from the row. -/
def Row.metricValue (r : Row) (m : String) : Option Int :=
  (r.metricValues.lookup m).join

/-- The shared filter mask of `load_pivot_data` / `load_chart_data` /
`load_all_chart_data` (bigquery_client.py lines 386-398, 427-438,
494-506): date range, equality on BC / Cohort / Active_Inactive /
Table, and plan membership only when the plan list is non-empty
(`if plans:`). -/
def rowMatches (startDate endDate : Int) (bc : Int)
    (cohort tableType activeInactive : String) (plans : List String)
    (r : Row) : Bool :=
  startDate ≤ r.reportingDate && r.reportingDate ≤ endDate &&
    r.bc == bc && r.cohort == cohort &&
    r.activeInactive == activeInactive && r.tableType == tableType &&
    (plans.isEmpty || plans.contains r.planName)

/-- `data.filter(mask)` for the shared mask. -/
def filterRows (t : Table) (startDate endDate : Int) (bc : Int)
    (cohort tableType activeInactive : String) (plans : List String) :
    List Row :=
  t.rows.filter
    (rowMatches startDate endDate bc cohort tableType activeInactive plans)

/-- The chart result dict
`{"Plan_Name": [...], "Reporting_Date": [...], "metric_value": [...]}`
as three parallel arrays. -/
structure ChartSeries where
  planName : List String
  reportingDate : List Int
  metricValue : List Int
deriving DecidableEq

/-- The empty chart result returned when the filtered subset is empty. -/
def emptyChart : ChartSeries := ⟨[], [], []⟩

/-- One step of the aggregation dict: `if key not in aggregated:
aggregated[key] = 0` then `aggregated[key] += value` for a non-null
value.  A new key is appended at the end (CPython dict insertion
order); an existing key is updated in place.  `v` is the contribution
of the current cell, i.e. the cell value with NULL read as `0`. -/
def dictAdd : List ((String × Int) × Int) → (String × Int) → Int →
    List ((String × Int) × Int)
  | [], k, v => [(k, v)]
  | (k', s) :: rest, k, v =>
    if k' = k then (k', s + v) :: rest else (k', s) :: dictAdd rest k v

/-- Python's comparison of the `sorted(aggregated.items())` elements
`((plan, date), total)`: lexicographic on plan, then date, then total. -/
def itemLe (a b : (String × Int) × Int) : Prop :=
  a.1.1 < b.1.1 ∨ (a.1.1 = b.1.1 ∧
    (a.1.2 < b.1.2 ∨ (a.1.2 = b.1.2 ∧ a.2 ≤ b.2)))

instance : DecidableRel itemLe := fun _a _b =>
  inferInstanceAs (Decidable (_ ∨ _))

instance : IsTrans ((String × Int) × Int) itemLe where
  trans _a _b _c hab hbc := by
    rcases hab with h1 | ⟨e1, h1⟩ <;> rcases hbc with h2 | ⟨e2, h2⟩
    · exact Or.inl (lt_trans h1 h2)
    · exact Or.inl (e2 ▸ h1)
    · exact Or.inl (e1 ▸ h2)
    · refine Or.inr ⟨e1.trans e2, ?_⟩
      rcases h1 with h1 | ⟨f1, h1⟩ <;> rcases h2 with h2 | ⟨f2, h2⟩
      · exact Or.inl (lt_trans h1 h2)
      · exact Or.inl (f2 ▸ h1)
      · exact Or.inl (f1 ▸ h2)
      · exact Or.inr ⟨f1.trans f2, le_trans h1 h2⟩

instance : IsTotal ((String × Int) × Int) itemLe where
  total a b := by
    rcases lt_trichotomy a.1.1 b.1.1 with h | h | h
    · exact Or.inl (Or.inl h)
    · rcases lt_trichotomy a.1.2 b.1.2 with h' | h' | h'
      · exact Or.inl (Or.inr ⟨h, Or.inl h'⟩)
      · rcases le_total a.2 b.2 with h'' | h''
        · exact Or.inl (Or.inr ⟨h, Or.inr ⟨h', h''⟩⟩)
        · exact Or.inr (Or.inr ⟨h.symm, Or.inr ⟨h'.symm, h''⟩⟩)
      · exact Or.inr (Or.inr ⟨h.symm, Or.inl h'⟩)
    · exact Or.inr (Or.inl h)

/-- The aggregation shared verbatim by `load_chart_data` (lines
451-464) and `load_all_chart_data` (lines 526-539): fold the
`(plan, date, value)` triples through the dict, then
`sorted(aggregated.items())`, then split into the three parallel
arrays.  The triples are given as `((plan, date), value)` pairs. -/
def aggregateChart (pairs : List ((String × Int) × Option Int)) :
    ChartSeries :=
  let agg := pairs.foldl (fun acc p => dictAdd acc p.1 (p.2.getD 0)) []
  let s := List.insertionSort itemLe agg
  ⟨s.map (·.1.1), s.map (·.1.2), s.map (·.2)⟩

/-- `load_chart_data` (lines 416-473),-cache consultation elided: the
query-result cache (lines 418-421, 472) stores exactly the value this
function computes under the key modelled by `load_chart_data_cache_key`
below, so the cache-miss computation is the function's meaning.
Returns `none` when the call raises (metric not a numeric column of a
non-empty filtered subset). -/
def load_chart_data (t : Table) (startDate endDate : Int) (bc : Int)
    (cohort : String) (plans : List String) (metric : String)
    (tableType : String) (activeInactive : String := "Active") :
    Option ChartSeries :=
  let filtered :=
    filterRows t startDate endDate bc cohort tableType activeInactive plans
  if filtered.isEmpty then some emptyChart
  else if metric ∈ t.metricCols then
    some (aggregateChart (filtered.map fun r =>
      ((r.planName, r.reportingDate), r.metricValue metric)))
  else none

/-- `load_all_chart_data` (lines 480-548): one filter pass, then the
per-metric aggregation; a metric absent from `column_names` yields an
empty series, a metric naming one of the seven non-numeric fixed
columns raises (modelled by `none` for the whole call). -/
def load_all_chart_data (t : Table) (startDate endDate : Int) (bc : Int)
    (cohort : String) (plans : List String) (metrics : List String)
    (tableType : String) (activeInactive : String := "Active") :
    Option (List (String × ChartSeries)) :=
  let filtered :=
    filterRows t startDate endDate bc cohort tableType activeInactive plans
  if filtered.isEmpty then some (metrics.map fun m => (m, emptyChart))
  else metrics.mapM fun m =>
    if m ∈ t.columnNames then
      if m ∈ t.metricCols then
        some (m, aggregateChart (filtered.map fun r =>
          ((r.planName, r.reportingDate), r.metricValue m)))
      else none
    else some (m, emptyChart)

/-- The pivot result dict: the three always-projected arrays plus one
array per requested metric column.  A requested metric that names one
of the seven fixed columns re-adds an already-projected non-numeric
column under its existing key; it is omitted from `metricData` here
(its values are not numeric cells), which is observationally equal for
the properties below. -/
structure PivotResult where
  appName : List String
  planName : List String
  reportingDate : List Int
  metricData : List (String × List (Option Int))
deriving DecidableEq

/-- `load_pivot_data` (lines 375-413), cache consultation elided as for
`load_chart_data`: filter, project the three fixed arrays, and add one
array per requested metric that is a column (`if metric in
filtered.column_names`, line 409). -/
def load_pivot_data (t : Table) (startDate endDate : Int) (bc : Int)
    (cohort : String) (plans : List String) (metrics : List String)
    (tableType : String) (activeInactive : String := "Active") :
    PivotResult :=
  let filtered :=
    filterRows t startDate endDate bc cohort tableType activeInactive plans
  { appName := filtered.map (·.appName)
    planName := filtered.map (·.planName)
    reportingDate := filtered.map (·.reportingDate)
    metricData := (metrics.filter (fun m => m ∈ t.metricCols)).map
      (fun m => (m, filtered.map (·.metricValue m))) }

/-! ### Specification-side rendering of the chart aggregation

The spec describes `chart_series` as: sum the metric values within
each (PlanName, ReportingDate) group of the filtered rows (null
contributing zero), return the groups sorted ascending by
(PlanName, ReportingDate).  `chartSeriesSpec` renders those words
directly and is proven equal to the source-derived `load_chart_data`
below. -/

/-- The keys of `l` that are not in `seen`, kept in first-occurrence
order. -/
def newKeys (seen : List (String × Int)) :
    List (String × Int) → List (String × Int)
  | [] => []
  | k :: ks => if k ∈ seen then newKeys seen ks
    else k :: newKeys (k :: seen) ks

/-- First-occurrence deduplication: the distinct group keys. -/
def dedupFO (l : List (String × Int)) : List (String × Int) :=
  newKeys [] l

/-- The sum of the non-null contributions carrying key `k` (a null
cell contributes zero). -/
def totalOf (ps : List ((String × Int) × Option Int))
    (k : String × Int) : Int :=
  ((ps.filter (fun p => p.1 = k)).map (fun p => p.2.getD 0)).sum

/-- Ascending (PlanName, ReportingDate) order, non-strict. -/
def pairLe (a b : String × Int) : Prop :=
  a.1 < b.1 ∨ (a.1 = b.1 ∧ a.2 ≤ b.2)

/-- Ascending (PlanName, ReportingDate) order, strict. -/
def pairLt (a b : String × Int) : Prop :=
  a.1 < b.1 ∨ (a.1 = b.1 ∧ a.2 < b.2)

instance : DecidableRel pairLe := fun _a _b =>
  inferInstanceAs (Decidable (_ ∨ _))

instance : DecidableRel pairLt := fun _a _b =>
  inferInstanceAs (Decidable (_ ∨ _))

instance : IsTrans (String × Int) pairLe where
  trans _a _b _c hab hbc := by
    rcases hab with h1 | ⟨e1, h1⟩ <;> rcases hbc with h2 | ⟨e2, h2⟩
    · exact Or.inl (lt_trans h1 h2)
    · exact Or.inl (e2 ▸ h1)
    · exact Or.inl (e1 ▸ h2)
    · exact Or.inr ⟨e1.trans e2, le_trans h1 h2⟩

instance : IsTotal (String × Int) pairLe where
  total a b := by
    rcases lt_trichotomy a.1 b.1 with h | h | h
    · exact Or.inl (Or.inl h)
    · rcases le_total a.2 b.2 with h' | h'
      · exact Or.inl (Or.inr ⟨h, h'⟩)
      · exact Or.inr (Or.inr ⟨h.symm, h'⟩)
    · exact Or.inr (Or.inl h)

/-- `chart_series` as the spec words it: group, sum with nulls as
zero, sort ascending by (PlanName, ReportingDate). -/
def chartSeriesSpec (t : Table) (startDate endDate : Int) (bc : Int)
    (cohort : String) (plans : List String) (metric : String)
    (tableType : String) (activeInactive : String := "Active") :
    ChartSeries :=
  let rows :=
    filterRows t startDate endDate bc cohort tableType activeInactive plans
  let keys := List.insertionSort pairLe
    (dedupFO (rows.map fun r => (r.planName, r.reportingDate)))
  { planName := keys.map (·.1)
    reportingDate := keys.map (·.2)
    metricValue := keys.map fun k =>
      (((rows.filter fun r => (r.planName, r.reportingDate) = k).map
        fun r => (r.metricValue metric).getD 0).sum) }

/-! ### Query-result cache keys (`_get_cache_key`, lines 358-361)

`_get_cache_key(*args)` builds `"_".join(str(a) for a in args)` and
returns the first 16 hex digits of its MD5.  The MD5 truncation is a
fixed deterministic function of the joined string, so it is taken as a
parameter `md5_16`: every equality between joined strings transfers to
an equality between the final keys for the actual hash. -/

/-- The Python values that reach `_get_cache_key` from the three query
functions: strings, ints, `datetime.date`s, and tuples of (plan or
metric) strings. -/
inductive PyVal where
  | str (s : String)
  | int (n : Int)
  | date (y m d : Nat)
  | tup (xs : List String)
deriving DecidableEq

/-- Zero-pad to two digits (Python `%02d`, for months and days). -/
def pad2 (n : Nat) : String :=
  if n < 10 then "0" ++ toString n else toString n

/-- Zero-pad to four digits (Python `%04d`, for years). -/
def pad4 (n : Nat) : String :=
  if n < 10 then "000" ++ toString n
  else if n < 100 then "00" ++ toString n
  else if n < 1000 then "0" ++ toString n
  else toString n

/-- Python `repr` of a plan/metric string inside a tuple; assumes the
names contain no quote or escape characters, as the dashboard's plan
and metric labels do not. -/
def pyRepr (s : String) : String := "'" ++ s ++ "'"

/-- Python `str` of a tuple of strings: `()`, `('a',)`, `('a', 'b')`. -/
def pyTupleStr : List String → String
  | [] => "()"
  | [a] => "(" ++ pyRepr a ++ ",)"
  | xs => "(" ++ String.intercalate ", " (xs.map pyRepr) ++ ")"

/-- Python `str` of the argument values. -/
def pyStr : PyVal → String
  | .str s => s
  | .int n => toString n
  | .date y m d => pad4 y ++ "-" ++ pad2 m ++ "-" ++ pad2 d
  | .tup xs => pyTupleStr xs

/-- `_get_cache_key` with the MD5 truncation abstracted as `md5_16`:
the key is the hash of `"_".join(str(a) for a in args)`. -/
def _get_cache_key (md5_16 : String → String) (args : List PyVal) :
    String :=
  md5_16 (String.intercalate "_" (args.map pyStr))

/-- Python `tuple(sorted(plans))` for a list of strings. -/
def sortStrings (l : List String) : List String :=
  List.insertionSort (· ≤ ·) l

/-- The cache key computed by `load_pivot_data` (line 377). -/
def load_pivot_data_cache_key (md5_16 : String → String)
    (startDate endDate bc cohort : PyVal) (plans metrics : List String)
    (tableType activeInactive : PyVal) : String :=
  _get_cache_key md5_16 [.str "pivot", startDate, endDate, bc, cohort,
    .tup (sortStrings plans), .tup (sortStrings metrics), tableType,
    activeInactive]

/-- The cache key computed by `load_chart_data` (line 418). -/
def load_chart_data_cache_key (md5_16 : String → String)
    (startDate endDate bc cohort : PyVal) (plans : List String)
    (metric : PyVal) (tableType activeInactive : PyVal) : String :=
  _get_cache_key md5_16 [.str "chart", startDate, endDate, bc, cohort,
    .tup (sortStrings plans), metric, tableType, activeInactive]

/-- The cache key computed by `load_all_chart_data` (line 485). -/
def load_all_chart_data_cache_key (md5_16 : String → String)
    (startDate endDate bc cohort : PyVal) (plans metrics : List String)
    (tableType activeInactive : PyVal) : String :=
  _get_cache_key md5_16 [.str "all_charts", startDate, endDate, bc,
    cohort, .tup (sortStrings plans), .tup (sortStrings metrics),
    tableType, activeInactive]

/-! ### The external world and the in-process caches -/

/-- The four durable objects in the configured bucket: the two snapshot
slots and the two refresh-metadata timestamps. -/
structure Store where
  active : Option Table
  staging : Option Table
  bqTime : Option Int
  gcsTime : Option Int
deriving DecidableEq

/-- A snapshot slot name (`GCS_ACTIVE_CACHE` / `GCS_STAGING_CACHE`). -/
inductive Slot where
  | active
  | staging
deriving DecidableEq

/-- A metadata object name (`GCS_BQ_REFRESH_METADATA` /
`GCS_GCS_REFRESH_METADATA`). -/
inductive MetaKey where
  | bqRefresh
  | gcsRefresh
deriving DecidableEq

/-- Contents of a snapshot slot. -/
def Store.getSlot (s : Store) : Slot → Option Table
  | .active => s.active
  | .staging => s.staging

/-- Write a snapshot slot. -/
def Store.setSlot (s : Store) : Slot → Table → Store
  | .active, d => { s with active := some d }
  | .staging, d => { s with staging := some d }

/-- Contents of a metadata object. -/
def Store.getMeta (s : Store) : MetaKey → Option Int
  | .bqRefresh => s.bqTime
  | .gcsRefresh => s.gcsTime

/-- Write a metadata object. -/
def Store.setMeta (s : Store) : MetaKey → Int → Store
  | .bqRefresh, now => { s with bqTime := some now }
  | .gcsRefresh, now => { s with gcsTime := some now }

/-- The external systems as seen by one call: `bucket` is the memoized
result of `get_gcs_bucket` (`true` = a handle, `false` = `None`);
`store` holds the durable objects; the three flags inject transport
failures of downloads (and parses), uploads, and the BigQuery query;
`bqData` is what a successful BigQuery query returns. -/
structure World where
  bucket : Bool
  store : Store
  downloadOk : Bool
  uploadOk : Bool
  bqOk : Bool
  bqData : Table
deriving DecidableEq

/-- `load_parquet_from_gcs` (lines 119-137): `None` for a null handle,
a missing object, or a failed download/parse (the `except` branch). -/
def load_parquet_from_gcs (w : World) (slot : Slot) : Option Table :=
  if w.bucket = false then none
  else
    match w.store.getSlot slot with
    | none => none
    | some t => if w.downloadOk then some t else none

/-- `save_parquet_to_gcs` (lines 140-151): `False` for a null handle or
a failed upload (the `except` branch), `True` and the updated store on
success. -/
def save_parquet_to_gcs (w : World) (slot : Slot) (d : Table) :
    Bool × World :=
  if w.bucket = false then (false, w)
  else if w.uploadOk then (true, { w with store := w.store.setSlot slot d })
  else (false, w)

/-- `get_metadata_timestamp` (lines 95-104): `None` for a null handle,
a missing object, or a failed download/parse. -/
def get_metadata_timestamp (w : World) (k : MetaKey) : Option Int :=
  if w.bucket = false then none
  else
    match w.store.getMeta k with
    | none => none
    | some t => if w.downloadOk then some t else none

/-- `set_metadata_timestamp` (lines 107-116) with its default
`timestamp = now`: `False` for a null handle or a failed upload. -/
def set_metadata_timestamp (w : World) (k : MetaKey) (now : Int) :
    Bool × World :=
  if w.bucket = false then (false, w)
  else if w.uploadOk then (true, { w with store := w.store.setMeta k now })
  else (false, w)

/-- `load_from_bigquery` (lines 158-200): no `try`/`except` — a failed
query raises out of the function. -/
def load_from_bigquery (w : World) : Except Unit Table :=
  if w.bqOk then .ok w.bqData else .error ()

/-- The `_app_cache` master-data entry (`data`, `loaded_at`); the three
derived keys it also carries are written as `None` and never read, and
are elided. -/
structure AppCache where
  data : Option Table
  loadedAt : Option Int
deriving DecidableEq

/-- One `_derived_cache` entry; the payload itself is irrelevant to the
claims, only its presence. -/
structure DEntry where
  dataPresent : Bool
  loadedAt : Option Int
deriving DecidableEq

/-- The `_derived_cache` dict with its three keys. -/
structure DerivedCache where
  dateBounds : DEntry
  planGroupsActive : DEntry
  planGroupsInactive : DEntry
deriving DecidableEq

/-- The `_metadata_cache` dict. -/
structure MetaCache where
  bqRefresh : Option Int
  gcsRefresh : Option Int
  loadedAt : Option Int
deriving DecidableEq

/-- The `_query_cache` dict: key to `loaded_at`; the cached payloads
are irrelevant to the claims below (only which keys are present). -/
def QueryCache := List (String × Int)
deriving instance DecidableEq for QueryCache

/-- All in-process mutable caches of the module. -/
structure Caches where
  app : AppCache
  derived : DerivedCache
  query : QueryCache
  meta : MetaCache
deriving DecidableEq

/-- The reset value of `_app_cache` (lines 593-599). -/
def emptyAppCache : AppCache := ⟨none, none⟩

/-- The reset value of `_derived_cache` (lines 600-604). -/
def emptyDerivedCache : DerivedCache :=
  ⟨⟨false, none⟩, ⟨false, none⟩, ⟨false, none⟩⟩

/-- `_is_cache_valid` (lines 217-222); `CACHE_TTL` comes from the
configuration module (not in the corpus) and is the parameter `ttl`. -/
def _is_cache_valid (ttl now : Int) (c : AppCache) : Bool :=
  match c.data, c.loadedAt with
  | some _, some t => decide (now - t < ttl)
  | _, _ => false

/-- `METADATA_CACHE_TTL` (line 86). -/
def METADATA_CACHE_TTL : Int := 60

/-- `_is_metadata_cache_valid` (lines 88-92). -/
def _is_metadata_cache_valid (now : Int) (m : MetaCache) : Bool :=
  match m.loadedAt with
  | none => false
  | some t => decide (now - t < METADATA_CACHE_TTL)

/-- Tier 3 of `get_master_data` (lines 248-262): query BigQuery (no
exception handling — a failure propagates), populate the in-process
cache, and if a bucket handle exists issue the four store writes,
ignoring each call's success flag exactly as the source does. -/
def get_master_data_tier3 (now : Int) (_c : AppCache) (w : World) :
    Except Unit (Table × AppCache × World) :=
  match load_from_bigquery w with
  | .error e => .error e
  | .ok data =>
    let c' : AppCache := { data := some data, loadedAt := some now }
    if w.bucket then
      let w1 := (save_parquet_to_gcs w .active data).2
      let w2 := (save_parquet_to_gcs w1 .staging data).2
      let w3 := (set_metadata_timestamp w2 .bqRefresh now).2
      let w4 := (set_metadata_timestamp w3 .gcsRefresh now).2
      .ok (data, c', w4)
    else .ok (data, c', w)

/-- `get_master_data` (lines 225-262).  When tier 1 is valid,
`_app_cache["data"]` is necessarily present, and the `getD` default is
unreachable. -/
def get_master_data (ttl now : Int) (c : AppCache) (w : World) :
    Except Unit (Table × AppCache × World) :=
  if _is_cache_valid ttl now c then .ok (c.data.getD ⟨[], []⟩, c, w)
  else if w.bucket then
    match load_parquet_from_gcs w .active with
    | some d => .ok (d, { data := some d, loadedAt := some now }, w)
    | none => get_master_data_tier3 now c w
  else get_master_data_tier3 now c w

/-- `refresh_bq_to_staging` (lines 555-569); the source appends
`str(e)` to the failure message, modelled by the fixed prefix. -/
def refresh_bq_to_staging (now : Int) (w : World) :
    (Bool × String) × World :=
  match load_from_bigquery w with
  | .error _ => ((false, "BQ refresh failed: "), w)
  | .ok data =>
    if w.bucket then
      let w1 := (save_parquet_to_gcs w .staging data).2
      let w2 := (set_metadata_timestamp w1 .bqRefresh now).2
      ((true, "BQ refresh complete. Data saved to staging."), w2)
    else ((false, "GCS bucket not configured"), w)

/-- `refresh_gcs_from_staging` (lines 572-609): bucket check, staging
`blob.exists()` check, staging download, then the active-slot write and
promote-timestamp write with their success flags ignored, then the
reset of `_app_cache`, `_derived_cache` and `_query_cache`
(`_metadata_cache` is not touched). -/
def refresh_gcs_from_staging (now : Int) (cs : Caches) (w : World) :
    (Bool × String) × Caches × World :=
  if w.bucket = false then
    ((false, "GCS bucket not configured"), cs, w)
  else
    match w.store.staging with
    | none => ((false, "No staging data. Run Refresh BQ first."), cs, w)
    | some _ =>
      match load_parquet_from_gcs w .staging with
      | none => ((false, "Failed to load staging data"), cs, w)
      | some data =>
        let w1 := (save_parquet_to_gcs w .active data).2
        let w2 := (set_metadata_timestamp w1 .gcsRefresh now).2
        ((true, "GCS refresh complete."),
          { app := emptyAppCache, derived := emptyDerivedCache,
            query := [], meta := cs.meta }, w2)

/-- `get_last_bq_refresh` (lines 636-651): serve the cached value when
the metadata cache is fresh and holds a non-null timestamp, else fetch
both timestamps from the store and refill the cache. -/
def get_last_bq_refresh (now : Int) (m : MetaCache) (w : World) :
    Option Int × MetaCache :=
  if _is_metadata_cache_valid now m && m.bqRefresh.isSome then
    (m.bqRefresh, m)
  else
    let bq := get_metadata_timestamp w .bqRefresh
    let gcs := get_metadata_timestamp w .gcsRefresh
    (bq, { bqRefresh := bq, gcsRefresh := gcs, loadedAt := some now })

/-- `get_last_gcs_refresh` (lines 654-669), symmetric to
`get_last_bq_refresh`. -/
def get_last_gcs_refresh (now : Int) (m : MetaCache) (w : World) :
    Option Int × MetaCache :=
  if _is_metadata_cache_valid now m && m.gcsRefresh.isSome then
    (m.gcsRefresh, m)
  else
    let bq := get_metadata_timestamp w .bqRefresh
    let gcs := get_metadata_timestamp w .gcsRefresh
    (gcs, { bqRefresh := bq, gcsRefresh := gcs, loadedAt := some now })

/-- `is_staging_ready` (lines 676-680):
`bq is not None and (gcs is None or bq > gcs)`, with the metadata-cache
state threaded through the two getters. -/
def is_staging_ready (now : Int) (m : MetaCache) (w : World) :
    Bool × MetaCache :=
  let r1 := get_last_bq_refresh now m w
  let r2 := get_last_gcs_refresh now r1.2 w
  (match r1.1, r2.1 with
    | none, _ => false
    | some _, none => true
    | some b, some g => decide (g < b), r2.2)

/-! ### Tier predicates for `get_master_data` -/

/-- The call is served from the in-process cache. -/
def tier1Hit (ttl now : Int) (c : AppCache) : Prop :=
  _is_cache_valid ttl now c = true

/-- The call is served from the durable active snapshot. -/
def tier2Hit (ttl now : Int) (c : AppCache) (w : World) : Prop :=
  _is_cache_valid ttl now c = false ∧ w.bucket = true ∧
    (load_parquet_from_gcs w .active).isSome = true

/-- The call is served by a fresh BigQuery extraction. -/
def tier3Hit (ttl now : Int) (c : AppCache) (w : World) : Prop :=
  _is_cache_valid ttl now c = false ∧
    (w.bucket = false ∨ load_parquet_from_gcs w .active = none) ∧
    w.bqOk = true

/-! ## Theorems -/

/-- `sorted(l)` depends only on the multiset of elements. -/
theorem sortStrings_eq_of_perm {l l' : List String}
    (h : List.Perm l l') : sortStrings l = sortStrings l' :=
  List.eq_of_perm_of_sorted
    ((List.perm_insertionSort _ l).trans
      (h.trans (List.perm_insertionSort _ l').symm))
    (List.sorted_insertionSort _ l) (List.sorted_insertionSort _ l')

/-- C4: permuting the plan list and the metric list leaves the
query-result cache key of `load_pivot_data`, `load_all_chart_data` and
`load_chart_data` unchanged, because each key is computed from
`tuple(sorted(plans))` (and `tuple(sorted(metrics))`), so a call with
reordered lists hits the cache entry written by the original call. -/
theorem cache_key_order_independent (md5_16 : String → String)
    (startDate endDate bc cohort tableType activeInactive metric : PyVal)
    {plans plans' metrics metrics' : List String}
    (hp : List.Perm plans plans') (hm : List.Perm metrics metrics') :
    load_pivot_data_cache_key md5_16 startDate endDate bc cohort plans
        metrics tableType activeInactive =
      load_pivot_data_cache_key md5_16 startDate endDate bc cohort plans'
        metrics' tableType activeInactive ∧
    load_all_chart_data_cache_key md5_16 startDate endDate bc cohort
        plans metrics tableType activeInactive =
      load_all_chart_data_cache_key md5_16 startDate endDate bc cohort
        plans' metrics' tableType activeInactive ∧
    load_chart_data_cache_key md5_16 startDate endDate bc cohort plans
        metric tableType activeInactive =
      load_chart_data_cache_key md5_16 startDate endDate bc cohort plans'
        metric tableType activeInactive := by
  rw [load_pivot_data_cache_key, load_pivot_data_cache_key,
    load_all_chart_data_cache_key, load_all_chart_data_cache_key,
    load_chart_data_cache_key, load_chart_data_cache_key,
    sortStrings_eq_of_perm hp, sortStrings_eq_of_perm hm]
  exact ⟨rfl, rfl, rfl⟩

/-- Witness for C4 at concrete reordered plan and metric lists. -/
theorem cache_key_order_independent_witness :
    load_pivot_data_cache_key id (.date 2024 1 1) (.date 2024 6 30)
        (.int 4) (.str "United States") ["B", "A"] ["Y", "X"]
        (.str "Regular") (.str "Active") =
      load_pivot_data_cache_key id (.date 2024 1 1) (.date 2024 6 30)
        (.int 4) (.str "United States") ["A", "B"] ["X", "Y"]
        (.str "Regular") (.str "Active") ∧
    load_all_chart_data_cache_key id (.date 2024 1 1) (.date 2024 6 30)
        (.int 4) (.str "United States") ["B", "A"] ["Y", "X"]
        (.str "Regular") (.str "Active") =
      load_all_chart_data_cache_key id (.date 2024 1 1) (.date 2024 6 30)
        (.int 4) (.str "United States") ["A", "B"] ["X", "Y"]
        (.str "Regular") (.str "Active") ∧
    load_chart_data_cache_key id (.date 2024 1 1) (.date 2024 6 30)
        (.int 4) (.str "United States") ["B", "A"] (.str "Rebills")
        (.str "Regular") (.str "Active") =
      load_chart_data_cache_key id (.date 2024 1 1) (.date 2024 6 30)
        (.int 4) (.str "United States") ["A", "B"] (.str "Rebills")
        (.str "Regular") (.str "Active") :=
  cache_key_order_independent id (.date 2024 1 1) (.date 2024 6 30)
    (.int 4) (.str "United States") (.str "Regular") (.str "Active")
    (.str "Rebills") (by decide) (by decide)

/-- C8: the cache key is not injective.  `str()` erases the type of an
argument: a `datetime.date` and its ISO string produce the same joined
string `"chart_2024-05-07_..."`, hence the same MD5-derived key, for
any hash function `md5_16` — two different queries share one cache
entry.  (The argument tuples themselves are distinct.) -/
theorem cache_key_not_injective (md5_16 : String → String) :
    PyVal.date 2024 5 7 ≠ PyVal.str "2024-05-07" ∧
    load_chart_data_cache_key md5_16 (.date 2024 5 7)
        (.date 2024 6 30) (.int 4) (.str "United States") ["Plan A"]
        (.str "Subscriptions") (.str "Regular") (.str "Active") =
      load_chart_data_cache_key md5_16 (.str "2024-05-07")
        (.date 2024 6 30) (.int 4) (.str "United States") ["Plan A"]
        (.str "Subscriptions") (.str "Regular") (.str "Active") := by
  refine ⟨by decide, ?_⟩
  rw [load_chart_data_cache_key, load_chart_data_cache_key,
    _get_cache_key, _get_cache_key]
  exact congrArg md5_16 (by decide)

/-- Witness for C8 at the identity in place of the hash. -/
theorem cache_key_not_injective_witness :
    PyVal.date 2024 5 7 ≠ PyVal.str "2024-05-07" ∧
    load_chart_data_cache_key id (.date 2024 5 7)
        (.date 2024 6 30) (.int 4) (.str "United States") ["Plan A"]
        (.str "Subscriptions") (.str "Regular") (.str "Active") =
      load_chart_data_cache_key id (.str "2024-05-07")
        (.date 2024 6 30) (.int 4) (.str "United States") ["Plan A"]
        (.str "Subscriptions") (.str "Regular") (.str "Active") :=
  cache_key_not_injective id

/-- C7: `is_staging_ready` is true iff the last-extract timestamp it
reads exists and either the last-promote timestamp is absent or the
extract timestamp is strictly greater.  First stated against the two
timestamps the function actually obtains (unconditionally), then
against the stored timestamps when the metadata cache is cold and the
store is reachable; in particular the result is false whenever
last-promote >= last-extract. -/
theorem staging_ready_characterization (now : Int) (m : MetaCache)
    (w : World) :
    ((is_staging_ready now m w).1 = true ↔
      ∃ b, (get_last_bq_refresh now m w).1 = some b ∧
        ((get_last_gcs_refresh now (get_last_bq_refresh now m w).2 w).1
            = none ∨
          ∃ g, (get_last_gcs_refresh now
              (get_last_bq_refresh now m w).2 w).1 = some g ∧ g < b)) ∧
    (m.loadedAt = none → w.bucket = true → w.downloadOk = true →
      (((is_staging_ready now m w).1 = true ↔
          ∃ b, w.store.bqTime = some b ∧
            (w.store.gcsTime = none ∨
              ∃ g, w.store.gcsTime = some g ∧ g < b)) ∧
        ∀ b g, w.store.bqTime = some b → w.store.gcsTime = some g →
          b ≤ g → (is_staging_ready now m w).1 = false)) := by
  constructor
  · rcases h1 : (get_last_bq_refresh now m w).1 with _ | b <;>
      rcases h2 : (get_last_gcs_refresh now
          (get_last_bq_refresh now m w).2 w).1 with _ | g <;>
      simp [is_staging_ready, h1, h2]
  · intro hla hbk hdl
    have hvalid : _is_metadata_cache_valid now m = false := by
      simp [_is_metadata_cache_valid, hla]
    have hself : _is_metadata_cache_valid now
        { bqRefresh := get_metadata_timestamp w .bqRefresh,
          gcsRefresh := get_metadata_timestamp w .gcsRefresh,
          loadedAt := some now } = true := by
      simp [_is_metadata_cache_valid, METADATA_CACHE_TTL]
    rcases hbq : w.store.bqTime with _ | b' <;>
      rcases hgcs : w.store.gcsTime with _ | g' <;>
      constructor <;>
      simp [is_staging_ready, get_last_bq_refresh, get_last_gcs_refresh,
        hvalid, hself, get_metadata_timestamp, Store.getMeta, hbk, hdl,
        hbq, hgcs]

/-- Witness for C7: with a cold metadata cache, a reachable store,
last-extract = 50 and last-promote = 20, staging is ready. -/
theorem staging_ready_characterization_witness :
    (is_staging_ready 100 ⟨none, none, none⟩
      ⟨true, ⟨none, none, some 50, some 20⟩, true, true, true,
        ⟨[], []⟩⟩).1 = true :=
  (((staging_ready_characterization 100 ⟨none, none, none⟩
        ⟨true, ⟨none, none, some 50, some 20⟩, true, true, true,
          ⟨[], []⟩⟩).2 rfl rfl rfl).1).mpr
    ⟨50, rfl, Or.inr ⟨20, rfl, by decide⟩⟩

/-- C2 counterexample: `load_from_bigquery` has no `try`/`except` and
`get_master_data` does not guard its tier-3 call, so a failed BigQuery
query propagates out of `get_master_data` as an exception
(`Except.error`) instead of being converted to an empty/null
sentinel — with a cold cache, no bucket, and a failing source system,
the call raises. -/
theorem get_master_data_raises_on_bq_error :
    get_master_data 300 0 ⟨none, none⟩
      ⟨false, ⟨none, none, none, none⟩, true, true, false, ⟨[], []⟩⟩ =
      .error () := rfl

/-- C2 amended: the object-store helpers (snapshot read/write, metadata
read/write) swallow transport-level errors and return null/false
sentinels, and the extraction stage `refresh_bq_to_staging` catches
source errors into a `(False, message)` pair — but the source
extraction reached through `get_master_data`'s tier 3 does NOT swallow:
a BigQuery failure propagates out of `get_master_data`. -/
theorem error_swallowing_policy_amended (w : World) (slot : Slot)
    (mk : MetaKey) (now ttl : Int) (d : Table) (c : AppCache) :
    (w.downloadOk = false → load_parquet_from_gcs w slot = none) ∧
    (w.downloadOk = false → get_metadata_timestamp w mk = none) ∧
    (w.uploadOk = false → save_parquet_to_gcs w slot d = (false, w)) ∧
    (w.uploadOk = false → set_metadata_timestamp w mk now = (false, w)) ∧
    (w.bqOk = false → load_from_bigquery w = .error ()) ∧
    (w.bqOk = false →
      refresh_bq_to_staging now w = ((false, "BQ refresh failed: "), w)) ∧
    (w.bqOk = false → c.data = none → w.store.active = none →
      get_master_data ttl now c w = .error ()) := by
  refine ⟨?_, ?_, ?_, ?_, ?_, ?_, ?_⟩
  · intro h
    rcases hs : w.store.getSlot slot with _ | t <;>
      cases hb : w.bucket <;>
      simp [load_parquet_from_gcs, hs, hb, h]
  · intro h
    rcases hs : w.store.getMeta mk with _ | t <;>
      cases hb : w.bucket <;>
      simp [get_metadata_timestamp, hs, hb, h]
  · intro h
    cases hb : w.bucket <;> simp [save_parquet_to_gcs, hb, h]
  · intro h
    cases hb : w.bucket <;> simp [set_metadata_timestamp, hb, h]
  · intro h
    simp [load_from_bigquery, h]
  · intro h
    simp [refresh_bq_to_staging, load_from_bigquery, h]
  · intro h hc ha
    have h1 : _is_cache_valid ttl now c = false := by
      simp [_is_cache_valid, hc]
    have h2 : load_parquet_from_gcs w .active = none := by
      cases hb : w.bucket <;>
        simp [load_parquet_from_gcs, hb, Store.getSlot, ha]
    cases hb : w.bucket <;>
      simp [get_master_data, h1, hb, h2, get_master_data_tier3,
        load_from_bigquery, h]

/-- Witness for the amended C2 at a world whose downloads, uploads and
source queries all fail. -/
theorem error_swallowing_policy_amended_witness :
    load_parquet_from_gcs
      ⟨true, ⟨none, none, none, none⟩, false, false, false, ⟨[], []⟩⟩
      .active = none ∧
    get_metadata_timestamp
      ⟨true, ⟨none, none, none, none⟩, false, false, false, ⟨[], []⟩⟩
      .bqRefresh = none ∧
    save_parquet_to_gcs
      ⟨true, ⟨none, none, none, none⟩, false, false, false, ⟨[], []⟩⟩
      .active ⟨[], []⟩ = (false,
        ⟨true, ⟨none, none, none, none⟩, false, false, false,
          ⟨[], []⟩⟩) ∧
    set_metadata_timestamp
      ⟨true, ⟨none, none, none, none⟩, false, false, false, ⟨[], []⟩⟩
      .bqRefresh 5 = (false,
        ⟨true, ⟨none, none, none, none⟩, false, false, false,
          ⟨[], []⟩⟩) ∧
    load_from_bigquery
      ⟨true, ⟨none, none, none, none⟩, false, false, false, ⟨[], []⟩⟩ =
      .error () ∧
    refresh_bq_to_staging 5
      ⟨true, ⟨none, none, none, none⟩, false, false, false, ⟨[], []⟩⟩ =
      ((false, "BQ refresh failed: "),
        ⟨true, ⟨none, none, none, none⟩, false, false, false,
          ⟨[], []⟩⟩) ∧
    get_master_data 300 5 ⟨none, none⟩
      ⟨true, ⟨none, none, none, none⟩, false, false, false, ⟨[], []⟩⟩ =
      .error () := by
  have T := error_swallowing_policy_amended
    ⟨true, ⟨none, none, none, none⟩, false, false, false, ⟨[], []⟩⟩
    .active .bqRefresh 5 300 ⟨[], []⟩ ⟨none, none⟩
  exact ⟨T.1 rfl, T.2.1 rfl, T.2.2.1 rfl, T.2.2.2.1 rfl,
    T.2.2.2.2.1 rfl, T.2.2.2.2.2.1 rfl, T.2.2.2.2.2.2 rfl rfl rfl⟩

/-- C5 counterexample: `refresh_gcs_from_staging` ignores the success
flags of `save_parquet_to_gcs` and `set_metadata_timestamp` (lines
589-590), which swallow upload failures into `False`.  With a
reachable bucket, an existing staging snapshot, and failing uploads,
the call reports success ("GCS refresh complete.") although the
staging snapshot was NOT written to the active slot and the promote
timestamp was NOT stamped. -/
theorem promote_reports_success_without_write :
    (refresh_gcs_from_staging 100
        ⟨⟨none, none⟩, emptyDerivedCache, [], ⟨none, none, none⟩⟩
        ⟨true, ⟨none, some ⟨[], []⟩, none, none⟩, true, false, true,
          ⟨[], []⟩⟩).1 = (true, "GCS refresh complete.") ∧
    ((refresh_gcs_from_staging 100
        ⟨⟨none, none⟩, emptyDerivedCache, [], ⟨none, none, none⟩⟩
        ⟨true, ⟨none, some ⟨[], []⟩, none, none⟩, true, false, true,
          ⟨[], []⟩⟩).2.2).store.active = none ∧
    ((refresh_gcs_from_staging 100
        ⟨⟨none, none⟩, emptyDerivedCache, [], ⟨none, none, none⟩⟩
        ⟨true, ⟨none, some ⟨[], []⟩, none, none⟩, true, false, true,
          ⟨[], []⟩⟩).2.2).store.gcsTime = none :=
  ⟨rfl, rfl, rfl⟩

/-- C5 amended: `refresh_gcs_from_staging` fails with a descriptive
message when no bucket handle is available or no staging object
exists, leaving everything unchanged; when it reports success it has
reset the master, derived-aggregate and query-result caches to empty
(the metadata cache is untouched) and has ISSUED the active-slot write
and the promote-timestamp write — those writes land exactly when the
store uploads succeed, their failure being silently ignored. -/
theorem promote_staging_amended (now : Int) (cs : Caches) (w : World) :
    (w.bucket = false →
      refresh_gcs_from_staging now cs w =
        ((false, "GCS bucket not configured"), cs, w)) ∧
    (w.bucket = true → w.store.staging = none →
      refresh_gcs_from_staging now cs w =
        ((false, "No staging data. Run Refresh BQ first."), cs, w)) ∧
    ((refresh_gcs_from_staging now cs w).1.1 = true →
      ((refresh_gcs_from_staging now cs w).2.1).app = emptyAppCache ∧
      ((refresh_gcs_from_staging now cs w).2.1).derived =
        emptyDerivedCache ∧
      ((refresh_gcs_from_staging now cs w).2.1).query = [] ∧
      ((refresh_gcs_from_staging now cs w).2.1).meta = cs.meta ∧
      (w.uploadOk = true → ∃ d, w.store.staging = some d ∧
        ((refresh_gcs_from_staging now cs w).2.2).store.active =
          some d ∧
        ((refresh_gcs_from_staging now cs w).2.2).store.gcsTime =
          some now)) := by
  refine ⟨?_, ?_, ?_⟩
  · intro h
    simp [refresh_gcs_from_staging, h]
  · intro hb hs
    simp [refresh_gcs_from_staging, hb, hs]
  · intro hr
    cases hb : w.bucket
    · simp [refresh_gcs_from_staging, hb] at hr
    · rcases hs : w.store.staging with _ | d
      · simp [refresh_gcs_from_staging, hb, hs] at hr
      · cases hdl : w.downloadOk
        · simp [refresh_gcs_from_staging, load_parquet_from_gcs,
            Store.getSlot, hb, hs, hdl] at hr
        · cases hup : w.uploadOk <;>
            simp [refresh_gcs_from_staging, load_parquet_from_gcs,
              save_parquet_to_gcs, set_metadata_timestamp,
              Store.getSlot, Store.setSlot, Store.setMeta, hb, hs,
              hdl, hup]

/-- Witness for the amended C5: a successful promotion with working
uploads clears the three caches, keeps the metadata cache, writes the
active slot and stamps the promote timestamp. -/
theorem promote_staging_amended_witness :
    ((refresh_gcs_from_staging 7
        ⟨⟨some ⟨[], []⟩, some 0⟩,
          ⟨⟨true, some 0⟩, ⟨true, some 0⟩, ⟨true, some 0⟩⟩,
          [("k", 3)], ⟨some 1, some 2, some 3⟩⟩
        ⟨true, ⟨none, some ⟨[], []⟩, none, none⟩, true, true, true,
          ⟨[], []⟩⟩).2.1).app = emptyAppCache ∧
    ((refresh_gcs_from_staging 7
        ⟨⟨some ⟨[], []⟩, some 0⟩,
          ⟨⟨true, some 0⟩, ⟨true, some 0⟩, ⟨true, some 0⟩⟩,
          [("k", 3)], ⟨some 1, some 2, some 3⟩⟩
        ⟨true, ⟨none, some ⟨[], []⟩, none, none⟩, true, true, true,
          ⟨[], []⟩⟩).2.1).derived = emptyDerivedCache ∧
    ((refresh_gcs_from_staging 7
        ⟨⟨some ⟨[], []⟩, some 0⟩,
          ⟨⟨true, some 0⟩, ⟨true, some 0⟩, ⟨true, some 0⟩⟩,
          [("k", 3)], ⟨some 1, some 2, some 3⟩⟩
        ⟨true, ⟨none, some ⟨[], []⟩, none, none⟩, true, true, true,
          ⟨[], []⟩⟩).2.1).query = [] ∧
    ((refresh_gcs_from_staging 7
        ⟨⟨some ⟨[], []⟩, some 0⟩,
          ⟨⟨true, some 0⟩, ⟨true, some 0⟩, ⟨true, some 0⟩⟩,
          [("k", 3)], ⟨some 1, some 2, some 3⟩⟩
        ⟨true, ⟨none, some ⟨[], []⟩, none, none⟩, true, true, true,
          ⟨[], []⟩⟩).2.1).meta =
      (⟨some 1, some 2, some 3⟩ : MetaCache) ∧
    ∃ d, (⟨true, ⟨none, some ⟨[], []⟩, none, none⟩, true, true, true,
        ⟨[], []⟩⟩ : World).store.staging = some d ∧
      ((refresh_gcs_from_staging 7
        ⟨⟨some ⟨[], []⟩, some 0⟩,
          ⟨⟨true, some 0⟩, ⟨true, some 0⟩, ⟨true, some 0⟩⟩,
          [("k", 3)], ⟨some 1, some 2, some 3⟩⟩
        ⟨true, ⟨none, some ⟨[], []⟩, none, none⟩, true, true, true,
          ⟨[], []⟩⟩).2.2).store.active = some d ∧
      ((refresh_gcs_from_staging 7
        ⟨⟨some ⟨[], []⟩, some 0⟩,
          ⟨⟨true, some 0⟩, ⟨true, some 0⟩, ⟨true, some 0⟩⟩,
          [("k", 3)], ⟨some 1, some 2, some 3⟩⟩
        ⟨true, ⟨none, some ⟨[], []⟩, none, none⟩, true, true, true,
          ⟨[], []⟩⟩).2.2).store.gcsTime = some 7 := by
  have T := (promote_staging_amended 7
      ⟨⟨some ⟨[], []⟩, some 0⟩,
        ⟨⟨true, some 0⟩, ⟨true, some 0⟩, ⟨true, some 0⟩⟩,
        [("k", 3)], ⟨some 1, some 2, some 3⟩⟩
      ⟨true, ⟨none, some ⟨[], []⟩, none, none⟩, true, true, true,
        ⟨[], []⟩⟩).2.2 rfl
  exact ⟨T.1, T.2.1, T.2.2.1, T.2.2.2.1, T.2.2.2.2 rfl⟩

/-- A promotion that reports success leaves `_metadata_cache` exactly
as it was (the reset at lines 592-605 touches only `_app_cache`,
`_derived_cache` and `_query_cache`). -/
theorem refresh_success_meta_eq (now : Int) (cs : Caches) (w : World)
    (hr : (refresh_gcs_from_staging now cs w).1.1 = true) :
    ((refresh_gcs_from_staging now cs w).2.1).meta = cs.meta := by
  cases hb : w.bucket
  · simp [refresh_gcs_from_staging, hb] at hr
  · rcases hs : w.store.staging with _ | d
    · simp [refresh_gcs_from_staging, hb, hs] at hr
    · cases hdl : w.downloadOk
      · simp [refresh_gcs_from_staging, load_parquet_from_gcs,
          Store.getSlot, hb, hs, hdl] at hr
      · simp [refresh_gcs_from_staging, load_parquet_from_gcs,
          Store.getSlot, hb, hs, hdl]

/-- C10: a successful promotion does not touch the in-process metadata
timestamp cache, so while that cache is still fresh (its age below the
60-second `METADATA_CACHE_TTL`), `get_last_gcs_refresh` still returns
the pre-promotion promote timestamp and `is_staging_ready` still
reports true from the stale pair, even though the store now holds the
new promote timestamp. -/
theorem promote_leaves_metadata_cache_stale (promoteTime queryTime : Int)
    (cs : Caches) (w : World) (b g la : Int)
    (hr : (refresh_gcs_from_staging promoteTime cs w).1.1 = true)
    (hb : cs.meta.bqRefresh = some b) (hg : cs.meta.gcsRefresh = some g)
    (hla : cs.meta.loadedAt = some la) (hfresh : queryTime - la < 60)
    (hready : g < b) :
    ((refresh_gcs_from_staging promoteTime cs w).2.1).meta = cs.meta ∧
    (get_last_gcs_refresh queryTime
        ((refresh_gcs_from_staging promoteTime cs w).2.1).meta
        ((refresh_gcs_from_staging promoteTime cs w).2.2)).1 = some g ∧
    (is_staging_ready queryTime
        ((refresh_gcs_from_staging promoteTime cs w).2.1).meta
        ((refresh_gcs_from_staging promoteTime cs w).2.2)).1 = true := by
  have hmeta := refresh_success_meta_eq promoteTime cs w hr
  have hv : _is_metadata_cache_valid queryTime cs.meta = true := by
    simp [_is_metadata_cache_valid, hla, METADATA_CACHE_TTL]
    exact hfresh
  refine ⟨hmeta, ?_, ?_⟩ <;> rw [hmeta]
  · simp [get_last_gcs_refresh, hv, hg]
  · simp [is_staging_ready, get_last_bq_refresh, get_last_gcs_refresh,
      hv, hb, hg]
    exact hready

/-- Witness for C10: promote at time 100 with a metadata cache loaded
at 90 holding extract = 50, promote = 20; queried at time 120 (30s
later, below the TTL) the getters still serve the stale pair. -/
theorem promote_leaves_metadata_cache_stale_witness :
    ((refresh_gcs_from_staging 100
        ⟨⟨none, none⟩, emptyDerivedCache, [], ⟨some 50, some 20, some 90⟩⟩
        ⟨true, ⟨none, some ⟨[], []⟩, none, none⟩, true, true, true,
          ⟨[], []⟩⟩).2.1).meta = (⟨some 50, some 20, some 90⟩ : MetaCache) ∧
    (get_last_gcs_refresh 120
        ((refresh_gcs_from_staging 100
          ⟨⟨none, none⟩, emptyDerivedCache, [],
            ⟨some 50, some 20, some 90⟩⟩
          ⟨true, ⟨none, some ⟨[], []⟩, none, none⟩, true, true, true,
            ⟨[], []⟩⟩).2.1).meta
        ((refresh_gcs_from_staging 100
          ⟨⟨none, none⟩, emptyDerivedCache, [],
            ⟨some 50, some 20, some 90⟩⟩
          ⟨true, ⟨none, some ⟨[], []⟩, none, none⟩, true, true, true,
            ⟨[], []⟩⟩).2.2)).1 = some 20 ∧
    (is_staging_ready 120
        ((refresh_gcs_from_staging 100
          ⟨⟨none, none⟩, emptyDerivedCache, [],
            ⟨some 50, some 20, some 90⟩⟩
          ⟨true, ⟨none, some ⟨[], []⟩, none, none⟩, true, true, true,
            ⟨[], []⟩⟩).2.1).meta
        ((refresh_gcs_from_staging 100
          ⟨⟨none, none⟩, emptyDerivedCache, [],
            ⟨some 50, some 20, some 90⟩⟩
          ⟨true, ⟨none, some ⟨[], []⟩, none, none⟩, true, true, true,
            ⟨[], []⟩⟩).2.2)).1 = true :=
  promote_leaves_metadata_cache_stale 100 120
    ⟨⟨none, none⟩, emptyDerivedCache, [], ⟨some 50, some 20, some 90⟩⟩
    ⟨true, ⟨none, some ⟨[], []⟩, none, none⟩, true, true, true,
      ⟨[], []⟩⟩ 50 20 90 rfl rfl rfl rfl (by decide) (by decide)

/-- The three tier predicates of `get_master_data` exclude one
another by construction. -/
theorem tiers_mutually_exclusive (ttl now : Int) (c : AppCache)
    (w : World) :
    ¬(tier1Hit ttl now c ∧ tier2Hit ttl now c w) ∧
    ¬(tier1Hit ttl now c ∧ tier3Hit ttl now c w) ∧
    ¬(tier2Hit ttl now c w ∧ tier3Hit ttl now c w) := by
  refine ⟨?_, ?_, ?_⟩
  · rintro ⟨h1, h2, -⟩
    rw [tier1Hit] at h1
    rw [h1] at h2
    cases h2
  · rintro ⟨h1, h2, -⟩
    rw [tier1Hit] at h1
    rw [h1] at h2
    cases h2
  · rintro ⟨⟨-, hb, hsome⟩, -, hor, -⟩
    rcases hor with hb' | hl
    · rw [hb] at hb'
      cases hb'
    · rw [hl] at hsome
      cases hsome

/-- C6 counterexample: a tier-3 resolution with an available bucket
handle but failing uploads does NOT leave the result in the snapshot
slots — the write failures are silently swallowed (lines 256-260
ignore the return flags), so the active slot stays empty although the
call succeeded and the durable store handle was available. -/
theorem tier3_write_not_guaranteed :
    get_master_data 300 0 ⟨none, none⟩
        ⟨true, ⟨none, none, none, none⟩, true, false, true,
          ⟨["Subscriptions"], []⟩⟩ =
      .ok (⟨["Subscriptions"], []⟩, ⟨some ⟨["Subscriptions"], []⟩, some 0⟩,
        ⟨true, ⟨none, none, none, none⟩, true, false, true,
          ⟨["Subscriptions"], []⟩⟩) ∧
    (⟨true, ⟨none, none, none, none⟩, true, false, true,
      ⟨["Subscriptions"], []⟩⟩ : World).store.active = none :=
  ⟨rfl, rfl⟩

/-- C6 amended: every `get_master_data` call that returns a table is
served by exactly one of the three tiers; tier 1 returns the cached
table unchanged, tier 2 adopts the active snapshot into the in-process
cache, and tier 3 returns the fresh extraction, populates the
in-process cache and — when a bucket handle is available — ISSUES the
writes of both snapshot slots and both refresh timestamps, which land
exactly when the store uploads succeed (their failure is silently
ignored). -/
theorem get_master_data_tiers_amended (ttl now : Int) (c : AppCache)
    (w : World) (d : Table) (c' : AppCache) (w' : World)
    (h : get_master_data ttl now c w = .ok (d, c', w')) :
    (tier1Hit ttl now c ∨ tier2Hit ttl now c w ∨ tier3Hit ttl now c w) ∧
    ¬(tier1Hit ttl now c ∧ tier2Hit ttl now c w) ∧
    ¬(tier1Hit ttl now c ∧ tier3Hit ttl now c w) ∧
    ¬(tier2Hit ttl now c w ∧ tier3Hit ttl now c w) ∧
    (tier1Hit ttl now c → c.data = some d ∧ c' = c ∧ w' = w) ∧
    (tier2Hit ttl now c w → load_parquet_from_gcs w .active = some d ∧
      c' = ⟨some d, some now⟩ ∧ w' = w) ∧
    (tier3Hit ttl now c w → d = w.bqData ∧ c' = ⟨some d, some now⟩ ∧
      (w.bucket = false → w' = w) ∧
      (w.bucket = true → w.uploadOk = true →
        w'.store = ⟨some d, some d, some now, some now⟩) ∧
      (w.bucket = true → w.uploadOk = false → w' = w)) := by
  obtain ⟨he12, he13, he23⟩ := tiers_mutually_exclusive ttl now c w
  refine ⟨?_, he12, he13, he23, ?_, ?_, ?_⟩
  · by_cases hv : _is_cache_valid ttl now c = true
    · exact Or.inl hv
    · have hv' : _is_cache_valid ttl now c = false := by simpa using hv
      cases hb : w.bucket
      · cases hq : w.bqOk
        · exfalso
          simp [get_master_data, hv', hb, get_master_data_tier3,
            load_from_bigquery, hq] at h
        · exact Or.inr (Or.inr ⟨hv', Or.inl hb, hq⟩)
      · rcases hl : load_parquet_from_gcs w .active with _ | d0
        · cases hq : w.bqOk
          · exfalso
            simp [get_master_data, hv', hb, hl, get_master_data_tier3,
              load_from_bigquery, hq] at h
          · exact Or.inr (Or.inr ⟨hv', Or.inr hl, hq⟩)
        · exact Or.inr (Or.inl ⟨hv', hb, by simp [hl]⟩)
  · intro ht1
    have hv : _is_cache_valid ttl now c = true := ht1
    rcases hd : c.data with _ | x
    · exfalso
      simp [_is_cache_valid, hd] at hv
    · have h2 := h
      simp [get_master_data, hv, hd] at h2
      obtain ⟨e1, e2, e3⟩ := h2
      exact ⟨by rw [e1], e2.symm, e3.symm⟩
  · rintro ⟨hv', hb, hsome⟩
    rcases hl : load_parquet_from_gcs w .active with _ | d0
    · rw [hl] at hsome
      cases hsome
    · have h2 := h
      simp [get_master_data, hv', hb, hl] at h2
      obtain ⟨e1, e2, e3⟩ := h2
      subst e1
      exact ⟨rfl, e2.symm, e3.symm⟩
  · rintro ⟨hv', hor, hq⟩
    have hbq : load_from_bigquery w = .ok w.bqData := by
      simp [load_from_bigquery, hq]
    have hmain : get_master_data ttl now c w =
        get_master_data_tier3 now c w := by
      rcases hor with hb | hl
      · simp [get_master_data, hv', hb]
      · cases hb : w.bucket
        · simp [get_master_data, hv', hb]
        · simp [get_master_data, hv', hb, hl]
    rw [hmain] at h
    cases hb : w.bucket
    · simp [get_master_data_tier3, hbq, hb] at h
      obtain ⟨e1, e2, e3⟩ := h
      subst e1
      exact ⟨rfl, e2.symm, fun _ => e3.symm,
        fun hbt => Bool.noConfusion hbt, fun hbt => Bool.noConfusion hbt⟩
    · cases hup : w.uploadOk
      · simp [get_master_data_tier3, hbq, hb, save_parquet_to_gcs,
          set_metadata_timestamp, hup] at h
        obtain ⟨e1, e2, e3⟩ := h
        subst e1
        exact ⟨rfl, e2.symm, fun hbf => Bool.noConfusion hbf,
          fun _ hut => Bool.noConfusion hut, fun _ _ => e3.symm⟩
      · simp [get_master_data_tier3, hbq, hb, save_parquet_to_gcs,
          set_metadata_timestamp, Store.setSlot, Store.setMeta, hup] at h
        obtain ⟨e1, e2, e3⟩ := h
        subst e1
        refine ⟨rfl, e2.symm, fun hbf => Bool.noConfusion hbf, ?_,
          fun _ huf => Bool.noConfusion huf⟩
        intro _ _
        rw [← e3]

/-! ### The aggregation dict versus grouped sums -/

/-- Prepending a contribution adds its value to its own group total
and leaves the other groups unchanged. -/
theorem totalOf_cons (q : (String × Int) × Option Int)
    (ps : List ((String × Int) × Option Int)) (x : String × Int) :
    totalOf (q :: ps) x =
      (if q.1 = x then q.2.getD 0 else 0) + totalOf ps x := by
  by_cases h : q.1 = x <;> simp [totalOf, List.filter_cons, h]

/-- `dictAdd` on a keyed map with the key present bumps that key's
value in place. -/
theorem dictAdd_map_mem {X : List (String × Int)}
    {f : (String × Int) → Int} {k : String × Int} (v : Int)
    (hk : k ∈ X) (hX : X.Nodup) :
    dictAdd (X.map fun k' => (k', f k')) k v =
      X.map fun k' => (k', if k' = k then f k' + v else f k') := by
  induction X with
  | nil => cases hk
  | cons x rest ih =>
    rw [List.map_cons, List.map_cons, dictAdd]
    by_cases hx : x = k
    · rw [if_pos hx, if_pos hx]
      have hkr : k ∉ rest := by
        rw [← hx]
        exact (List.nodup_cons.mp hX).1
      congr 1
      exact List.map_congr_left fun k' hk' => by
        rw [if_neg (show ¬k' = k by intro e; subst e; exact hkr hk')]
    · rw [if_neg hx, if_neg hx]
      congr 1
      exact ih ((List.mem_cons.mp hk).resolve_left fun e => hx e.symm)
        (List.nodup_cons.mp hX).2

/-- `dictAdd` on a keyed map with the key absent appends the new
entry at the end. -/
theorem dictAdd_map_not_mem {X : List (String × Int)}
    {f : (String × Int) → Int} {k : String × Int} (v : Int)
    (hk : k ∉ X) :
    dictAdd (X.map fun k' => (k', f k')) k v =
      X.map (fun k' => (k', f k')) ++ [(k, v)] := by
  induction X with
  | nil => rfl
  | cons x rest ih =>
    rw [List.map_cons, dictAdd,
      if_neg (show ¬x = k by
        intro e
        subst e
        exact hk (List.mem_cons_self _ _)),
      List.cons_append]
    congr 1
    exact ih fun hr => hk (List.mem_cons_of_mem x hr)

/-- Unfolding equation of `newKeys` on a cons cell. -/
theorem newKeys_cons (seen : List (String × Int)) (k : String × Int)
    (ks : List (String × Int)) :
    newKeys seen (k :: ks) =
      if k ∈ seen then newKeys seen ks
      else k :: newKeys (k :: seen) ks := rfl

/-- `newKeys` depends on the seen set only through membership. -/
theorem newKeys_congr {s s' : List (String × Int)}
    (h : ∀ x, x ∈ s ↔ x ∈ s') :
    ∀ l, newKeys s l = newKeys s' l := by
  intro l
  induction l generalizing s s' with
  | nil => rfl
  | cons k ks ih =>
    by_cases hk : k ∈ s
    · rw [newKeys_cons, newKeys_cons, if_pos hk, if_pos ((h k).mp hk)]
      exact ih h
    · rw [newKeys_cons, newKeys_cons, if_neg hk,
        if_neg (fun hx => hk ((h k).mpr hx))]
      congr 1
      exact ih fun x => by
        rw [List.mem_cons, List.mem_cons, h x]

/-- Membership in `newKeys`: in the list and not already seen. -/
theorem mem_newKeys {x : String × Int} :
    ∀ {s l : List (String × Int)}, x ∈ newKeys s l ↔ x ∈ l ∧ x ∉ s := by
  intro s l
  induction l generalizing s with
  | nil => simp [newKeys]
  | cons k ks ih =>
    by_cases hk : k ∈ s
    · rw [newKeys_cons, if_pos hk, ih, List.mem_cons]
      constructor
      · exact fun ⟨h1, h2⟩ => ⟨Or.inr h1, h2⟩
      · rintro ⟨h1 | h1, h2⟩
        · exact absurd (h1 ▸ hk) h2
        · exact ⟨h1, h2⟩
    · rw [newKeys_cons, if_neg hk, List.mem_cons, ih, List.mem_cons,
        List.mem_cons]
      constructor
      · rintro (rfl | ⟨h1, h2⟩)
        · exact ⟨Or.inl rfl, hk⟩
        · exact ⟨Or.inr h1, fun hs => h2 (Or.inr hs)⟩
      · rintro ⟨rfl | h1, h2⟩
        · exact Or.inl rfl
        · by_cases hxk : x = k
          · exact Or.inl hxk
          · exact Or.inr ⟨h1, fun hs => (hs.elim hxk h2 : False)⟩

/-- The new keys are pairwise distinct. -/
theorem newKeys_nodup :
    ∀ (s l : List (String × Int)), (newKeys s l).Nodup := by
  intro s l
  induction l generalizing s with
  | nil => exact List.nodup_nil
  | cons k ks ih =>
    by_cases hk : k ∈ s
    · rw [newKeys_cons, if_pos hk]
      exact ih s
    · rw [newKeys_cons, if_neg hk]
      exact List.nodup_cons.mpr
        ⟨fun hmem => (mem_newKeys.mp hmem).2 (List.mem_cons_self k s),
          ih (k :: s)⟩

/-- The aggregation fold of `load_chart_data` / `load_all_chart_data`,
characterized: starting from a keyed map, it bumps the totals of the
seen keys and appends the unseen group keys in first-occurrence order,
each with its group total. -/
theorem foldl_dictAdd (ps : List ((String × Int) × Option Int)) :
    ∀ (X : List (String × Int)) (f : (String × Int) → Int), X.Nodup →
    ps.foldl (fun acc p => dictAdd acc p.1 (p.2.getD 0))
        (X.map fun k => (k, f k)) =
      X.map (fun k => (k, f k + totalOf ps k)) ++
        (newKeys X (ps.map Prod.fst)).map (fun k => (k, totalOf ps k)) := by
  induction ps with
  | nil =>
    intro X f hX
    simp [totalOf, newKeys]
  | cons p ps ih =>
    intro X f hX
    rw [List.foldl_cons]
    by_cases hk : p.1 ∈ X
    · rw [dictAdd_map_mem (p.2.getD 0) hk hX,
        ih X (fun k' => if k' = p.1 then f k' + p.2.getD 0 else f k') hX]
      congr 1
      · exact List.map_congr_left fun k' _ => by
          by_cases h : k' = p.1
          · subst h
            rw [if_pos rfl, totalOf_cons, if_pos rfl, add_assoc]
          · rw [if_neg h, totalOf_cons,
              if_neg (fun e => h e.symm), zero_add]
      · rw [List.map_cons, newKeys_cons, if_pos hk]
        exact List.map_congr_left fun k'' hmem => by
          have hne : p.1 ≠ k'' := fun e =>
            (mem_newKeys.mp hmem).2 (e ▸ hk)
          rw [totalOf_cons, if_neg hne, zero_add]
    · rw [dictAdd_map_not_mem (p.2.getD 0) hk]
      have hacc : X.map (fun k' => (k', f k')) ++ [(p.1, p.2.getD 0)] =
          (X ++ [p.1]).map
            (fun k' => (k', if k' = p.1 then p.2.getD 0 else f k')) := by
        rw [List.map_append]
        congr 1
        · exact List.map_congr_left fun k' hk' => by
            rw [if_neg (show ¬k' = p.1 by
              intro e
              subst e
              exact hk hk')]
        · simp
      have hX' : (X ++ [p.1]).Nodup := by
        rw [List.nodup_append]
        exact ⟨hX, List.nodup_singleton _,
          fun a ha hb => hk ((List.mem_singleton.mp hb) ▸ ha)⟩
      rw [hacc, ih (X ++ [p.1]) _ hX', List.map_append,
        List.append_assoc]
      congr 1
      · exact List.map_congr_left fun k' hk' => by
          have hne : k' ≠ p.1 := fun e => hk (e ▸ hk')
          rw [if_neg hne, totalOf_cons, if_neg (fun e => hne e.symm),
            zero_add]
      · simp only [List.map_cons, List.map_nil, List.cons_append,
          List.nil_append]
        rw [newKeys_cons, if_neg hk, List.map_cons]
        congr 1
        · rw [if_true, totalOf_cons, if_pos rfl]
        · rw [@newKeys_congr (X ++ [p.1]) (p.1 :: X)
            (fun x => by rw [List.mem_append, List.mem_singleton,
              List.mem_cons, or_comm]) (List.map Prod.fst ps)]
          exact List.map_congr_left fun k'' hmem => by
            have hne : p.1 ≠ k'' := fun e =>
              (mem_newKeys.mp hmem).2 (e ▸ List.mem_cons_self p.1 X)
            rw [totalOf_cons, if_neg hne, zero_add]

/-- The strict (plan, date) order is asymmetric. -/
theorem pairLt_asymm {a b : String × Int} (h1 : pairLt a b)
    (h2 : pairLt b a) : False := by
  rcases h1 with h1 | ⟨e1, h1⟩ <;> rcases h2 with h2 | ⟨e2, h2⟩
  · exact lt_asymm h1 h2
  · rw [e2] at h1
    exact lt_irrefl _ h1
  · rw [e1] at h2
    exact lt_irrefl _ h2
  · exact lt_asymm h1 h2

/-- Python's triple comparison restricted to items with distinct keys
is the strict key order. -/
theorem itemLe_ne_lt {a b : (String × Int) × Int} (h : itemLe a b)
    (hne : a.1 ≠ b.1) : pairLt a.1 b.1 := by
  rcases h with h | ⟨e, h | ⟨e2, _⟩⟩
  · exact Or.inl h
  · exact Or.inr ⟨e, h⟩
  · exact absurd (Prod.ext e e2) hne

/-- The non-strict key order on distinct keys is strict. -/
theorem pairLe_ne_lt {a b : String × Int} (h : pairLe a b)
    (hne : a ≠ b) : pairLt a b := by
  rcases h with h | ⟨e, h⟩
  · exact Or.inl h
  · rcases lt_or_eq_of_le h with h' | h'
    · exact Or.inr ⟨e, h'⟩
    · exact absurd (Prod.ext e h') hne

/-- Projecting the keys back out of a keyed map. -/
theorem map_fst_map_pair (f : (String × Int) → Int) :
    ∀ X : List (String × Int),
    (X.map fun k => (k, f k)).map Prod.fst = X := by
  intro X
  induction X with
  | nil => rfl
  | cons x xs ih => simp only [List.map_cons, ih]

/-- Sorting a keyed map of distinct keys by Python's item comparison
equals sorting the keys and mapping: the totals never act as
tie-breakers. -/
theorem insertionSort_itemLe_map {X : List (String × Int)}
    (hX : X.Nodup) (f : (String × Int) → Int) :
    List.insertionSort itemLe (X.map fun k => (k, f k)) =
      (List.insertionSort pairLe X).map fun k => (k, f k) := by
  haveI : IsAntisymm ((String × Int) × Int) (fun a b => pairLt a.1 b.1) :=
    ⟨fun _a _b h1 h2 => (pairLt_asymm h1 h2).elim⟩
  apply List.eq_of_perm_of_sorted (r := fun a b => pairLt a.1 b.1)
  · exact (List.perm_insertionSort _ _).trans
      (((List.perm_insertionSort pairLe X).map _).symm)
  · have hs := List.sorted_insertionSort itemLe (X.map fun k => (k, f k))
    have hperm1 : List.Perm ((List.insertionSort itemLe
        (X.map fun k => (k, f k))).map Prod.fst) X := by
      have h1 := (List.perm_insertionSort itemLe
        (X.map fun k => (k, f k))).map Prod.fst
      rw [map_fst_map_pair f X] at h1
      exact h1
    have hnd := List.Perm.nodup hperm1.symm hX
    have hne := List.pairwise_map.mp hnd
    exact (List.Pairwise.and hs hne).imp fun h => itemLe_ne_lt h.1 h.2
  · have hs := List.sorted_insertionSort pairLe X
    have hnd : (List.insertionSort pairLe X).Nodup :=
      List.Perm.nodup (List.perm_insertionSort pairLe X).symm hX
    have hlt : (List.insertionSort pairLe X).Pairwise pairLt :=
      (List.Pairwise.and hs hnd).imp fun h => pairLe_ne_lt h.1 h.2
    exact List.pairwise_map.mpr (hlt.imp fun h => h)

/-- The shared aggregation block characterized: the distinct group
keys sorted ascending by (plan, date), each carrying the sum of its
non-null contributions. -/
theorem aggregateChart_eq (ps : List ((String × Int) × Option Int)) :
    aggregateChart ps =
      ⟨(List.insertionSort pairLe (dedupFO (ps.map Prod.fst))).map (·.1),
        (List.insertionSort pairLe (dedupFO (ps.map Prod.fst))).map (·.2),
        (List.insertionSort pairLe (dedupFO (ps.map Prod.fst))).map
          fun k => totalOf ps k⟩ := by
  have h0 : ps.foldl (fun acc p => dictAdd acc p.1 (p.2.getD 0)) [] =
      (newKeys [] (ps.map Prod.fst)).map fun k => (k, totalOf ps k) := by
    have h := foldl_dictAdd ps [] (fun _ => (0 : Int)) List.nodup_nil
    simpa using h
  simp only [aggregateChart]
  rw [h0, insertionSort_itemLe_map (newKeys_nodup [] (ps.map Prod.fst))
    (fun k => totalOf ps k)]
  simp [dedupFO, List.map_map, Function.comp]

/-- Group totals over mapped rows are row sums over the group. -/
theorem totalOf_map_rows (rows : List Row) (metric : String)
    (k : String × Int) :
    totalOf (rows.map fun r =>
        ((r.planName, r.reportingDate), r.metricValue metric)) k =
      ((rows.filter fun r => (r.planName, r.reportingDate) = k).map
        fun r => (r.metricValue metric).getD 0).sum := by
  rw [totalOf, List.filter_map, List.map_map]
  rfl

/-- C3: `load_chart_data` does not raise when the metric is a numeric
column, and its result is exactly the spec's description: the metric
values summed within each (PlanName, ReportingDate) group of the
filtered rows with nulls contributing zero (an all-null group yields
0), sorted ascending by (PlanName, ReportingDate). -/
theorem chart_series_groups_sums_sorted (t : Table)
    (startDate endDate : Int) (bc : Int) (cohort : String)
    (plans : List String) (metric : String)
    (tableType activeInactive : String) (hm : metric ∈ t.metricCols) :
    load_chart_data t startDate endDate bc cohort plans metric
        tableType activeInactive =
      some (chartSeriesSpec t startDate endDate bc cohort plans metric
        tableType activeInactive) := by
  simp only [load_chart_data, chartSeriesSpec]
  by_cases hrows : (filterRows t startDate endDate bc cohort tableType
      activeInactive plans).isEmpty = true
  · rw [if_pos hrows]
    have he : filterRows t startDate endDate bc cohort tableType
        activeInactive plans = [] := by
      simpa using hrows
    rw [he]
    rfl
  · rw [if_neg hrows, if_pos hm, aggregateChart_eq]
    have hkeys : ((filterRows t startDate endDate bc cohort tableType
          activeInactive plans).map fun r =>
            ((r.planName, r.reportingDate), r.metricValue metric)).map
          Prod.fst =
        (filterRows t startDate endDate bc cohort tableType
          activeInactive plans).map fun r =>
            (r.planName, r.reportingDate) := by
      rw [List.map_map]
      rfl
    rw [hkeys]
    simp only [Option.some.injEq, ChartSeries.mk.injEq]
    refine ⟨trivial, trivial, ?_⟩
    exact List.map_congr_left fun k _ =>
      totalOf_map_rows (filterRows t startDate endDate bc cohort
        tableType activeInactive plans) metric k

/-- Witness for C3 on a table exercising duplicate group keys, a null
mixed into a non-null group, and an all-null group. -/
theorem chart_series_groups_sums_sorted_witness :
    load_chart_data
      ⟨["Subscriptions"],
        [⟨2, "App", "B", 1, "C", "Active", "R", [("Subscriptions", some 3)]⟩,
          ⟨2, "App", "B", 1, "C", "Active", "R", [("Subscriptions", none)]⟩,
          ⟨1, "App", "B", 1, "C", "Active", "R", [("Subscriptions", some 4)]⟩,
          ⟨5, "App", "A", 1, "C", "Active", "R", [("Subscriptions", none)]⟩]⟩
      0 10 1 "C" [] "Subscriptions" "R" "Active" =
      some (chartSeriesSpec
        ⟨["Subscriptions"],
          [⟨2, "App", "B", 1, "C", "Active", "R", [("Subscriptions", some 3)]⟩,
            ⟨2, "App", "B", 1, "C", "Active", "R", [("Subscriptions", none)]⟩,
            ⟨1, "App", "B", 1, "C", "Active", "R", [("Subscriptions", some 4)]⟩,
            ⟨5, "App", "A", 1, "C", "Active", "R", [("Subscriptions", none)]⟩]⟩
        0 10 1 "C" [] "Subscriptions" "R" "Active") :=
  chart_series_groups_sums_sorted
    ⟨["Subscriptions"],
      [⟨2, "App", "B", 1, "C", "Active", "R", [("Subscriptions", some 3)]⟩,
        ⟨2, "App", "B", 1, "C", "Active", "R", [("Subscriptions", none)]⟩,
        ⟨1, "App", "B", 1, "C", "Active", "R", [("Subscriptions", some 4)]⟩,
        ⟨5, "App", "A", 1, "C", "Active", "R", [("Subscriptions", none)]⟩]⟩
    0 10 1 "C" [] "Subscriptions" "R" "Active" (by decide)

/-- A metric column name is a column name. -/
theorem mem_columnNames_of_metricCol {t : Table} {m : String}
    (h : m ∈ t.metricCols) : m ∈ t.columnNames :=
  List.mem_append_right _ h

/-- `mapM` over `Option` where every element succeeds is the map of
the successes. -/
theorem mapM_eq_map {α β : Type} (f : α → Option β) (g : α → β) :
    ∀ l : List α, (∀ x ∈ l, f x = some (g x)) →
      l.mapM f = some (l.map g) := by
  intro l
  induction l with
  | nil => intro _; rfl
  | cons x xs ih =>
    intro h
    rw [List.mapM_cons, h x (List.mem_cons_self x xs),
      ih fun y hy => h y (List.mem_cons_of_mem x hy)]
    rfl

/-- Looking a present key up in a keyed map built over it. -/
theorem lookup_map_self {β : Type} (g : String → β) :
    ∀ (l : List String) (m : String), m ∈ l →
      (l.map fun m' => (m', g m')).lookup m = some (g m) := by
  intro l
  induction l with
  | nil => intro m hm; cases hm
  | cons x xs ih =>
    intro m hm
    rw [List.map_cons, List.lookup_cons]
    by_cases hx : m = x
    · subst hx
      simp
    · have hbeq : (m == x) = false := by simpa using hx
      rw [hbeq]
      exact ih m ((List.mem_cons.mp hm).resolve_left hx)

/-- C1 counterexample: for a metric that is not a column of the master
dataset and a non-empty filtered subset, `load_all_chart_data` returns
an empty series under that metric while `load_chart_data` raises
(KeyError), so the batched result is NOT the single-metric result. -/
theorem batched_vs_single_missing_metric :
    load_all_chart_data
        ⟨["Subscriptions"],
          [⟨2, "App", "B", 1, "C", "Active", "R",
            [("Subscriptions", some 3)]⟩]⟩
        0 10 1 "C" [] ["Bogus"] "R" "Active" =
      some [("Bogus", emptyChart)] ∧
    load_chart_data
        ⟨["Subscriptions"],
          [⟨2, "App", "B", 1, "C", "Active", "R",
            [("Subscriptions", some 3)]⟩]⟩
        0 10 1 "C" [] "Bogus" "R" "Active" = none ∧
    (load_all_chart_data
        ⟨["Subscriptions"],
          [⟨2, "App", "B", 1, "C", "Active", "R",
            [("Subscriptions", some 3)]⟩]⟩
        0 10 1 "C" [] ["Bogus"] "R" "Active").bind
        (fun L => L.lookup "Bogus") ≠
      load_chart_data
        ⟨["Subscriptions"],
          [⟨2, "App", "B", 1, "C", "Active", "R",
            [("Subscriptions", some 3)]⟩]⟩
        0 10 1 "C" [] "Bogus" "R" "Active" := by
  refine ⟨rfl, rfl, ?_⟩
  decide

/-- C1 amended: for every metric list whose members are all metric
columns of the master dataset, the batched `load_all_chart_data`
returns, under each requested metric, exactly the series that
`load_chart_data` computes for that metric from the same filters
(identical plan/date/value arrays); for a metric that is not a column
the batched call returns an empty series while the single call raises. -/
theorem batched_chart_matches_single_amended (t : Table)
    (startDate endDate : Int) (bc : Int) (cohort : String)
    (plans : List String) (metrics : List String)
    (tableType activeInactive : String)
    (hall : ∀ m' ∈ metrics, m' ∈ t.metricCols) (m : String)
    (hm : m ∈ metrics) :
    (load_all_chart_data t startDate endDate bc cohort plans metrics
        tableType activeInactive).bind (fun L => L.lookup m) =
      load_chart_data t startDate endDate bc cohort plans m
        tableType activeInactive := by
  simp only [load_all_chart_data, load_chart_data]
  by_cases hrows : (filterRows t startDate endDate bc cohort tableType
      activeInactive plans).isEmpty = true
  · rw [if_pos hrows, if_pos hrows]
    simpa using lookup_map_self (fun _ => emptyChart) metrics m hm
  · rw [if_neg hrows, if_neg hrows]
    have hmc := hall m hm
    rw [mapM_eq_map _
      (fun m' => (m', aggregateChart
        ((filterRows t startDate endDate bc cohort tableType
          activeInactive plans).map fun r =>
            ((r.planName, r.reportingDate), r.metricValue m'))))
      metrics
      (fun m' hm' => by
        rw [if_pos (mem_columnNames_of_metricCol (hall m' hm')),
          if_pos (hall m' hm')]),
      if_pos hmc]
    simpa using lookup_map_self
      (fun m' => aggregateChart
        ((filterRows t startDate endDate bc cohort tableType
          activeInactive plans).map fun r =>
            ((r.planName, r.reportingDate), r.metricValue m')))
      metrics m hm

/-- Witness for the amended C1 on a concrete two-metric batch. -/
theorem batched_chart_matches_single_amended_witness :
    (load_all_chart_data
        ⟨["Subscriptions", "Rebills"],
          [⟨2, "App", "B", 1, "C", "Active", "R",
            [("Subscriptions", some 3), ("Rebills", some 7)]⟩]⟩
        0 10 1 "C" [] ["Subscriptions", "Rebills"] "R" "Active").bind
        (fun L => L.lookup "Rebills") =
      load_chart_data
        ⟨["Subscriptions", "Rebills"],
          [⟨2, "App", "B", 1, "C", "Active", "R",
            [("Subscriptions", some 3), ("Rebills", some 7)]⟩]⟩
        0 10 1 "C" [] "Rebills" "R" "Active" :=
  batched_chart_matches_single_amended
    ⟨["Subscriptions", "Rebills"],
      [⟨2, "App", "B", 1, "C", "Active", "R",
        [("Subscriptions", some 3), ("Rebills", some 7)]⟩]⟩
    0 10 1 "C" [] ["Subscriptions", "Rebills"] "R" "Active"
    (by decide) "Rebills" (by decide)

/-- C9: for a metric that is not a column of the master dataset,
`load_chart_data` raises exactly when the filtered subset is
non-empty, `load_all_chart_data` returns an empty series for it, and
`load_pivot_data` silently omits it from the result. -/
theorem missing_metric_behavior (t : Table) (startDate endDate : Int)
    (bc : Int) (cohort : String) (plans : List String)
    (tableType activeInactive : String) (metric : String)
    (hm : metric ∉ t.columnNames) :
    (filterRows t startDate endDate bc cohort tableType activeInactive
        plans ≠ [] →
      load_chart_data t startDate endDate bc cohort plans metric
        tableType activeInactive = none) ∧
    load_all_chart_data t startDate endDate bc cohort plans [metric]
        tableType activeInactive = some [(metric, emptyChart)] ∧
    (∀ metrics, metric ∉
      (load_pivot_data t startDate endDate bc cohort plans metrics
        tableType activeInactive).metricData.map Prod.fst) ∧
    (filterRows t startDate endDate bc cohort tableType activeInactive
        plans = [] →
      load_chart_data t startDate endDate bc cohort plans metric
        tableType activeInactive = some emptyChart) := by
  have hmc : metric ∉ t.metricCols := fun h =>
    hm (mem_columnNames_of_metricCol h)
  refine ⟨?_, ?_, ?_, ?_⟩
  · intro hne
    have h0 : ¬(filterRows t startDate endDate bc cohort tableType
        activeInactive plans).isEmpty = true := by
      simpa [List.isEmpty_iff] using hne
    simp only [load_chart_data]
    rw [if_neg h0, if_neg hmc]
  · simp only [load_all_chart_data]
    by_cases hrows : (filterRows t startDate endDate bc cohort
        tableType activeInactive plans).isEmpty = true
    · rw [if_pos hrows]
      rfl
    · rw [if_neg hrows,
        mapM_eq_map _ (fun m' => (m', emptyChart)) [metric]
          (fun x hx => by
            have hxm : x = metric := List.mem_singleton.mp hx
            subst hxm
            rw [if_neg hm])]
      rfl
  · intro metrics hmem
    simp only [load_pivot_data] at hmem
    rcases List.mem_map.mp hmem with ⟨y, hy, ey⟩
    rcases List.mem_map.mp hy with ⟨m', hm', em⟩
    rcases List.mem_filter.mp hm' with ⟨-, hq⟩
    apply hmc
    have : m' = metric := by rw [← ey, ← em]
    rw [← this]
    exact of_decide_eq_true hq
  · intro he
    simp [load_chart_data, he]

/-- Witness for C9: a nonexistent column "Bogus" against a concrete
dataset, with both a non-empty and an empty filtered subset. -/
theorem missing_metric_behavior_witness :
    load_chart_data
        ⟨["Subscriptions"],
          [⟨2, "App", "B", 1, "C", "Active", "R",
            [("Subscriptions", some 3)]⟩]⟩
        0 10 1 "C" [] "Bogus" "R" "Active" = none ∧
    load_all_chart_data
        ⟨["Subscriptions"],
          [⟨2, "App", "B", 1, "C", "Active", "R",
            [("Subscriptions", some 3)]⟩]⟩
        0 10 1 "C" [] ["Bogus"] "R" "Active" =
      some [("Bogus", emptyChart)] ∧
    "Bogus" ∉
      (load_pivot_data
        ⟨["Subscriptions"],
          [⟨2, "App", "B", 1, "C", "Active", "R",
            [("Subscriptions", some 3)]⟩]⟩
        0 10 1 "C" [] ["Bogus", "Subscriptions"] "R"
        "Active").metricData.map Prod.fst ∧
    load_chart_data
        ⟨["Subscriptions"],
          [⟨2, "App", "B", 1, "C", "Active", "R",
            [("Subscriptions", some 3)]⟩]⟩
        20 30 1 "C" [] "Bogus" "R" "Active" = some emptyChart := by
  have T1 := missing_metric_behavior
    ⟨["Subscriptions"],
      [⟨2, "App", "B", 1, "C", "Active", "R",
        [("Subscriptions", some 3)]⟩]⟩
    0 10 1 "C" [] "R" "Active" "Bogus" (by decide)
  have T2 := missing_metric_behavior
    ⟨["Subscriptions"],
      [⟨2, "App", "B", 1, "C", "Active", "R",
        [("Subscriptions", some 3)]⟩]⟩
    20 30 1 "C" [] "R" "Active" "Bogus" (by decide)
  exact ⟨T1.1 (by decide), T1.2.1,
    T1.2.2.1 ["Bogus", "Subscriptions"], T2.2.2.2 rfl⟩

/-- Witness for the amended C6: a cold cache, an empty active slot and
a working source resolve through exactly one tier (tier 3). -/
theorem get_master_data_tiers_amended_witness :
    tier1Hit 300 0 (⟨none, none⟩ : AppCache) ∨
    tier2Hit 300 0 (⟨none, none⟩ : AppCache)
      ⟨true, ⟨none, none, none, none⟩, true, true, true,
        ⟨["Subscriptions"], []⟩⟩ ∨
    tier3Hit 300 0 (⟨none, none⟩ : AppCache)
      ⟨true, ⟨none, none, none, none⟩, true, true, true,
        ⟨["Subscriptions"], []⟩⟩ :=
  (get_master_data_tiers_amended 300 0 ⟨none, none⟩
    ⟨true, ⟨none, none, none, none⟩, true, true, true,
      ⟨["Subscriptions"], []⟩⟩
    ⟨["Subscriptions"], []⟩ ⟨some ⟨["Subscriptions"], []⟩, some 0⟩
    ⟨true, ⟨some ⟨["Subscriptions"], []⟩, some ⟨["Subscriptions"], []⟩,
      some 0, some 0⟩, true, true, true, ⟨["Subscriptions"], []⟩⟩
    rfl).1

end BQClient
